import Mathlib

/-!
Shallow embedding of `src/lib/audioRecorder.ts` (class `AudioRecorder`)
from the home-assistant-assist-desktop repository, together with proofs of
the specification's claims about it.

Modelling conventions:
* The four nullable instance fields `_context`, `_stream`, `_source`,
  `_recorder` become `Option` fields of the `AudioRecorder` structure.
* Calls into the platform audio engine (track stop/disable, context
  close/suspend/resume, source disconnect) are recorded as call counters in a
  surrounding `World`, so that "released exactly once" style claims are
  expressible.  Handles carry allocation ids drawn from `World.nextId`, so
  that "freshly constructed vs reused" is expressible.
* The async methods `start` and `stop` are translated as lists of atomic
  segments, one segment per stretch of synchronous code between `await`
  points; the method itself is the left fold of its segments.  Frames
  delivered by the engine can interleave only at segment boundaries
  (JavaScript's event loop runs the message handler as its own task, never
  inside a synchronous stretch).
* The consumer callback fixed at construction is modelled as an external
  frame log: the `onmessage` handler body (lines 112-117) appends the frame
  to the log exactly when it forwards it.
* `error(...)` logging from the catch in `start` is counted in
  `World.errorLogs`.  `info(...)` logging carries no state and is omitted.
-/

/-- One frame of 16-bit PCM samples (the payload of an `Int16Array` message). -/
abbrev Frame := List Int

/-- The `AudioContextState` of a processing context. -/
inductive CtxState where
  | running
  | suspended
  | closed
deriving DecidableEq, Repr

/-- The `readyState` of a media stream track. -/
inductive TrackState where
  | live
  | ended
deriving DecidableEq, Repr

/-- An `AudioContext` handle: allocation id, state, and sample rate. -/
structure Ctx where
  id : Nat
  state : CtxState
  sampleRate : Nat
deriving DecidableEq, Repr

/-- A `MediaStream` handle, represented by its single audio track. -/
structure Track where
  id : Nat
  enabled : Bool
  ready : TrackState
deriving DecidableEq, Repr

/-- A `MediaStreamAudioSourceNode` handle. -/
structure SourceNode where
  id : Nat
  connected : Bool
deriving DecidableEq, Repr

/-- An `AudioWorkletNode` handle; `hasOnMessage` records whether
`port.onmessage` is currently bound to the forwarding handler. -/
structure WorkletNode where
  id : Nat
  hasOnMessage : Bool
deriving DecidableEq, Repr

/-- The mutable instance fields of class `AudioRecorder` (lines 4-14). -/
structure AudioRecorder where
  _active : Bool
  _context : Option Ctx
  _stream : Option Track
  _source : Option SourceNode
  _recorder : Option WorkletNode
deriving DecidableEq, Repr

/-- The constructor (lines 16-18): all handle fields start out `undefined`
and `_active` starts out `false`. -/
def AudioRecorder.mk0 : AudioRecorder :=
  ⟨false, none, none, none, none⟩

/-- The host environment: secure-context flag, the two possible engine
constructors on `window`, and the outcomes of the asynchronous acquisition
steps. -/
structure Env where
  secure : Bool
  audioContextCtor : Option Nat
  webkitAudioContextCtor : Option Nat
  newContextOk : Bool
  ctxSampleRate : Nat
  getUserMediaOk : Bool
  addModuleOk : Bool
deriving DecidableEq, Repr

/-- The recorder instance plus the observable engine-call counters and the
allocation counter for fresh handles. -/
structure World where
  inst : AudioRecorder
  nextId : Nat
  errorLogs : Nat
  trackStopCalls : Nat
  ctxCloseCalls : Nat
  ctxSuspendCalls : Nat
  ctxResumeCalls : Nat
  srcDisconnectCalls : Nat
  portDetachCalls : Nat
deriving DecidableEq, Repr

/-- A freshly constructed session: `new AudioRecorder(callback)` with no
engine interaction yet. -/
def World.init : World :=
  ⟨AudioRecorder.mk0, 0, 0, 0, 0, 0, 0, 0, 0⟩

/-- The `sampleRate` getter (lines 24-26): `this._context?.sampleRate`. -/
def sampleRateOf (r : AudioRecorder) : Option Nat :=
  r._context.map Ctx.sampleRate

/-! ### JavaScript values, for the untyped `isSupported` getter -/

/-- Just enough of the JavaScript value universe to give the meaning of
`window.isSecureContext && (window.AudioContext || window.webkitAudioContext)`:
booleans, `undefined`, and constructor-function objects. -/
inductive JSVal where
  | bool : Bool → JSVal
  | jsUndefined : JSVal
  | ctorFn : Nat → JSVal
deriving DecidableEq, Repr

/-- JavaScript truthiness for the values we model. -/
def JSVal.truthy : JSVal → Bool
  | .bool b => b
  | .jsUndefined => false
  | .ctorFn _ => true

/-- JavaScript `&&`: returns the left operand when it is falsy, otherwise the
right operand. -/
def jsAnd (a b : JSVal) : JSVal :=
  if a.truthy then b else a

/-- JavaScript `||`: returns the left operand when it is truthy, otherwise the
right operand. -/
def jsOr (a b : JSVal) : JSVal :=
  if a.truthy then a else b

/-- `window.AudioContext` as a JavaScript value. -/
def windowAudioContext (env : Env) : JSVal :=
  match env.audioContextCtor with
  | some n => .ctorFn n
  | none => .jsUndefined

/-- `window.webkitAudioContext` as a JavaScript value. -/
def windowWebkitAudioContext (env : Env) : JSVal :=
  match env.webkitAudioContextCtor with
  | some n => .ctorFn n
  | none => .jsUndefined

/-- The static `isSupported` getter (lines 28-34), translated with
JavaScript's short-circuit semantics:
`window.isSecureContext && (window.AudioContext || window.webkitAudioContext)`. -/
def isSupported (env : Env) : JSVal :=
  jsAnd (.bool env.secure)
    (jsOr (windowAudioContext env) (windowWebkitAudioContext env))

/-! ### The frame-delivery callback -/

/-- The `port.onmessage` handler body installed at lines 112-117: if
`_active` is false the frame is dropped, otherwise `_callback(e.data)` runs,
i.e. the frame is appended unchanged to the consumer's log. -/
def deliverFrame (r : AudioRecorder) (log : List Frame) (f : Frame) : List Frame :=
  if r._active then log ++ [f] else log

/-! ### close (lines 80-92) -/

/-- `close()` (lines 80-92): set `_active = false`, stop the track if a
stream is held, null the worklet port handler, disconnect the source, close
the context, then clear all four handle fields. -/
def close (w : World) : World :=
  let r := { w.inst with _active := false }
  -- this._stream?.getTracks()[0].stop()
  let w1 :=
    match r._stream with
    | some t =>
        { w with inst := { r with _stream := some { t with ready := .ended } },
                 trackStopCalls := w.trackStopCalls + 1 }
    | none => { w with inst := r }
  -- if (this._recorder) { this._recorder.port.onmessage = null }
  let w2 :=
    match w1.inst._recorder with
    | some n =>
        { w1 with inst := { w1.inst with _recorder := some { n with hasOnMessage := false } },
                  portDetachCalls := w1.portDetachCalls + 1 }
    | none => w1
  -- this._source?.disconnect()
  let w3 :=
    match w2.inst._source with
    | some s =>
        { w2 with inst := { w2.inst with _source := some { s with connected := false } },
                  srcDisconnectCalls := w2.srcDisconnectCalls + 1 }
    | none => w2
  -- this._context?.close()
  let w4 :=
    match w3.inst._context with
    | some c =>
        { w3 with inst := { w3.inst with _context := some { c with state := .closed } },
                  ctxCloseCalls := w3.ctxCloseCalls + 1 }
    | none => w3
  -- clear every reference (lines 88-91)
  { w4 with inst := { w4.inst with
                        _stream := none, _source := none,
                        _recorder := none, _context := none } }

/-! ### stop (lines 67-78) -/

/-- The observable steps `stop()` can perform, in the order it performs
them.  `delay` (a timed wait before returning) is expressible here so that
its absence from `stopEffects` is a statement about the code, not about the
model's vocabulary. -/
inductive StopEffect where
  | setActiveFalse
  | disableTrack
  | suspendContext
  | delay : Nat → StopEffect
deriving DecidableEq, Repr

/-- The sequence of steps `stop()` performs from recorder state `r`
(lines 67-78): clear `_active`; if a stream is held, disable its track; if
the context exists and is running, suspend it.  Nothing follows the suspend
step. -/
def stopEffects (r : AudioRecorder) : List StopEffect :=
  [.setActiveFalse]
    ++ (match r._stream with
        | some _ => [.disableTrack]
        | none => [])
    ++ (match r._context with
        | some c => if c.state = .running then [.suspendContext] else []
        | none => [])

/-- State change of a single `stop()` step. -/
def applyStopEffect (w : World) : StopEffect → World
  | .setActiveFalse => { w with inst := { w.inst with _active := false } }
  | .disableTrack =>
      match w.inst._stream with
      | some t => { w with inst := { w.inst with _stream := some { t with enabled := false } } }
      | none => w
  | .suspendContext =>
      match w.inst._context with
      | some c =>
          { w with inst := { w.inst with _context := some { c with state := .suspended } },
                   ctxSuspendCalls := w.ctxSuspendCalls + 1 }
      | none => w
  | .delay _ => w

/-- Synchronous prefix of `stop()` (lines 68-75 up to the `suspend()` call):
everything before the single possible `await` point. -/
def stopSegA (w : World) : World :=
  (stopEffects w.inst).foldl applyStopEffect w

/-- Remainder of `stop()` after the `await` (lines 76-77): only logging, no
state change. -/
def stopSegB (w : World) : World := w

/-- `stop()` (lines 67-78) as the composition of its segments. -/
def stop (w : World) : World :=
  stopSegB (stopSegA w)

/-! ### start (lines 36-65) and _createContext (lines 94-121) -/

/-- The `needsRecreate` condition of lines 38-44: a component is missing, or
the context is closed, or the track has ended. -/
def needsRecreate (r : AudioRecorder) : Bool :=
  r._context.isNone || r._stream.isNone || r._source.isNone || r._recorder.isNone ||
    (match r._context with
     | some c => c.state = .closed
     | none => false) ||
    (match r._stream with
     | some t => t.ready = .ended
     | none => false)

/-- Line 50's condition: any of the four components still referenced. -/
def anyPresent (r : AudioRecorder) : Bool :=
  r._context.isSome || r._stream.isSome || r._source.isSome || r._recorder.isSome

/-- Whether `new (window.AudioContext || window.webkitAudioContext)()`
(line 96) succeeds: a constructor must exist and construction must not throw. -/
def ctxConstructionOk (env : Env) : Bool :=
  (env.audioContextCtor.isSome || env.webkitAudioContextCtor.isSome) && env.newContextOk

/-- Recreate path, first segment: lines 46-53 up to the `getUserMedia`
await — conditional `close()` (lines 50-52), then line 96's context
construction and assignment.  Only valid when `ctxConstructionOk env`. -/
def segRecreateA (env : Env) (w : World) : World :=
  let w1 := if anyPresent w.inst then close w else w
  { w1 with inst := { w1.inst with _context := some ⟨w1.nextId, .running, env.ctxSampleRate⟩ },
            nextId := w1.nextId + 1 }

/-- Recreate path when line 96 throws (no constructor on `window`, or
construction fails): the conditional `close()` runs, no handle is assigned,
and the `catch` of lines 54-57 logs and clears `_active`. -/
def segRecreateAFail (w : World) : World :=
  let w1 := if anyPresent w.inst then close w else w
  { w1 with inst := { w1.inst with _active := false }, errorLogs := w1.errorLogs + 1 }

/-- Recreate path, second segment: line 99's `_stream` assignment after the
`getUserMedia` await, up to the `addModule` await. -/
def segRecreateB (w : World) : World :=
  { w with inst := { w.inst with _stream := some ⟨w.nextId, true, .live⟩ },
           nextId := w.nextId + 1 }

/-- Recreate path when the `getUserMedia` await rejects: the `catch` of
lines 54-57 runs with the partially populated fields left as they are. -/
def segRecreateBFail (w : World) : World :=
  { w with inst := { w.inst with _active := false }, errorLogs := w.errorLogs + 1 }

/-- Recreate path, final segment (lines 107-120, after the `addModule`
await): create the source and worklet nodes, install the `onmessage`
handler, set `_active = true`, connect source to recorder. -/
def segRecreateC (w : World) : World :=
  let src : SourceNode := ⟨w.nextId, false⟩
  let node : WorkletNode := ⟨w.nextId + 1, true⟩
  { w with inst := { w.inst with
                       _source := some { src with connected := true },
                       _recorder := some node,
                       _active := true },
           nextId := w.nextId + 2 }

/-- Recreate path when the `addModule` await rejects: the `catch` of
lines 54-57 runs with the partially populated fields left as they are. -/
def segRecreateCFail (w : World) : World :=
  { w with inst := { w.inst with _active := false }, errorLogs := w.errorLogs + 1 }

/-- Reuse path, first segment (lines 59-61 up to the `resume()` await):
re-enable the track and resume the context. -/
def segReuseA (w : World) : World :=
  let w1 :=
    match w.inst._stream with
    | some t => { w with inst := { w.inst with _stream := some { t with enabled := true } } }
    | none => w
  match w1.inst._context with
  | some c =>
      { w1 with inst := { w1.inst with _context := some { c with state := .running } },
                ctxResumeCalls := w1.ctxResumeCalls + 1 }
  | none => w1

/-- Reuse path, final segment (lines 62-63, after the `resume()` await):
set `_active = true`. -/
def segReuseB (w : World) : World :=
  { w with inst := { w.inst with _active := true } }

/-- The atomic segments of `start()` (lines 36-65), chosen by the branch
taken and by which acquisition step (if any) fails.  Frame deliveries can
interleave only between segments. -/
def startSegs (env : Env) (r : AudioRecorder) : List (World → World) :=
  if needsRecreate r then
    if !ctxConstructionOk env then
      [segRecreateAFail]
    else if !env.getUserMediaOk then
      [segRecreateA env, segRecreateBFail]
    else if !env.addModuleOk then
      [segRecreateA env, segRecreateB, segRecreateCFail]
    else
      [segRecreateA env, segRecreateB, segRecreateC]
  else
    [segReuseA, segReuseB]

/-- `start()` (lines 36-65) as the composition of its segments.  The branch
conditions depend only on the recorder fields, which frame deliveries never
modify, so the segment list computed from the entry state is the one that
runs. -/
def start (env : Env) (w : World) : World :=
  (startSegs env w.inst).foldl (fun w g => g w) w

/-! ### Interleaved execution of segments and engine frame deliveries -/

/-- One scheduler step: an atomic synchronous segment of a control method,
or the engine delivering a frame between segments. -/
inductive Event where
  | seg : (World → World) → Event
  | frame : Frame → Event

/-- Run a schedule: segments transform the world, frame deliveries run the
`onmessage` handler body against the current world. -/
def exec : List Event → World → List Frame → World × List Frame
  | [], w, log => (w, log)
  | .seg g :: es, w, log => exec es (g w) log
  | .frame f :: es, w, log => exec es w (deliverFrame w.inst log f)

/-- The invariant of claim C2: an active session holds all four handles. -/
def resourcesPresent (r : AudioRecorder) : Bool :=
  r._context.isSome && r._stream.isSome && r._source.isSome && r._recorder.isSome

/-- An environment in which every acquisition step succeeds. -/
def envOk : Env :=
  ⟨true, some 0, none, true, 48000, true, true⟩

/-- `envOk` with the device-stream request failing (permission denied). -/
def envNoMedia : Env :=
  { envOk with getUserMediaOk := false }

/-- Whether a `stop()` step is a timed wait. -/
def StopEffect.isDelay : StopEffect → Bool
  | .delay _ => true
  | _ => false

/-- The data-model invariant: an active session holds all four handles. -/
def activeImpliesResources (r : AudioRecorder) : Prop :=
  r._active = true → resourcesPresent r = true

/-! ### Helper lemmas -/

/-- Full characterisation of a `close()` call: the handle fields are cleared,
`_active` is false, and each engine release call fires exactly once per
present handle. -/
theorem close_spec (w : World) :
    close w = { inst := ⟨false, none, none, none, none⟩,
                nextId := w.nextId,
                errorLogs := w.errorLogs,
                trackStopCalls := w.trackStopCalls + (if w.inst._stream.isSome then 1 else 0),
                ctxCloseCalls := w.ctxCloseCalls + (if w.inst._context.isSome then 1 else 0),
                ctxSuspendCalls := w.ctxSuspendCalls,
                ctxResumeCalls := w.ctxResumeCalls,
                srcDisconnectCalls := w.srcDisconnectCalls + (if w.inst._source.isSome then 1 else 0),
                portDetachCalls := w.portDetachCalls + (if w.inst._recorder.isSome then 1 else 0) } := by
  rcases w with ⟨⟨act, oc, os, osrc, orc⟩, n, e, ts, cc, cs, cr, sd, pd⟩
  cases oc <;> cases os <;> cases osrc <;> cases orc <;> rfl

/-- If `needsRecreate` is false, all four handles are present. -/
theorem needsRecreate_false_all_present {r : AudioRecorder}
    (h : needsRecreate r = false) :
    r._context.isSome = true ∧ r._stream.isSome = true ∧
      r._source.isSome = true ∧ r._recorder.isSome = true := by
  rcases r with ⟨act, oc, os, osrc, orc⟩
  cases oc <;> cases os <;> cases osrc <;> cases orc <;> simp_all [needsRecreate]

/-- With an intact bundle, `start()` takes the reuse branch. -/
theorem start_reuse (env : Env) (w : World) (h : needsRecreate w.inst = false) :
    start env w = segReuseB (segReuseA w) := by
  simp [start, startSegs, h]

/-- With a recreate condition and all acquisition steps succeeding,
`start()` runs the three recreate segments. -/
theorem start_recreate_ok (env : Env) (w : World) (h : needsRecreate w.inst = true)
    (hc : ctxConstructionOk env = true) (hm : env.getUserMediaOk = true)
    (ha : env.addModuleOk = true) :
    start env w = segRecreateC (segRecreateB (segRecreateA env w)) := by
  simp [start, startSegs, h, hc, hm, ha]

/-- Every path through `start()` reestablishes the invariant that an active
session holds all four handles. -/
theorem start_inv (env : Env) (w : World) :
    activeImpliesResources (start env w).inst := by
  intro hact
  by_cases h : needsRecreate w.inst
  · by_cases hc : ctxConstructionOk env
    · by_cases hm : env.getUserMediaOk
      · by_cases ha : env.addModuleOk
        · rw [start_recreate_ok env w h hc hm ha]
          by_cases hp : anyPresent w.inst <;>
            simp [segRecreateA, segRecreateB, segRecreateC, resourcesPresent, hp]
        · simp [start, startSegs, h, hc, hm, ha, segRecreateA, segRecreateB,
            segRecreateCFail] at hact
      · simp [start, startSegs, h, hc, hm, segRecreateA, segRecreateBFail] at hact
    · simp [start, startSegs, h, hc, segRecreateAFail] at hact
  · have h0 : needsRecreate w.inst = false := by simpa using h
    rw [start_reuse env w h0]
    obtain ⟨h1, h2, h3, h4⟩ := needsRecreate_false_all_present h0
    obtain ⟨c, hcx⟩ := Option.isSome_iff_exists.mp h1
    obtain ⟨t, hst⟩ := Option.isSome_iff_exists.mp h2
    simp [segReuseA, segReuseB, resourcesPresent, hcx, hst, h3, h4]

/-- `stop()` always leaves the gate flag cleared. -/
theorem stop_active_false (w : World) : (stop w).inst._active = false := by
  rcases w with ⟨⟨act, oc, os, osrc, orc⟩, n, e, ts, cc, cs, cr, sd, pd⟩
  rcases os with _ | ⟨tid, ten, trd⟩ <;>
    rcases oc with _ | ⟨cid, cst, csr⟩ <;>
    try cases cst
  all_goals rfl

/-- Running one segment event just applies the segment. -/
theorem exec_seg_cons (g : World → World) (es : List Event) (w : World)
    (log : List Frame) :
    exec (Event.seg g :: es) w log = exec es (g w) log := rfl

/-- A burst of frame deliveries between segments leaves the world unchanged
and extends the consumer log exactly when the gate flag is set. -/
theorem exec_frames_append (fs : List Frame) (es : List Event) (w : World)
    (log : List Frame) :
    exec (fs.map Event.frame ++ es) w log =
      exec es w (log ++ if w.inst._active then fs else []) := by
  induction fs generalizing log with
  | nil => simp [exec]
  | cons f fs ih =>
      by_cases h : w.inst._active <;>
        simp [exec, deliverFrame, h, ih]

/-- A trailing burst of frame deliveries. -/
theorem exec_frames (fs : List Frame) (w : World) (log : List Frame) :
    exec (fs.map Event.frame) w log =
      (w, log ++ if w.inst._active then fs else []) := by
  have h := exec_frames_append fs [] w log
  simpa [exec] using h

/-! ### Claims -/

/-- C1: every invocation of the frame-delivery callback discards the frame
when the gate flag is false at that moment, and otherwise forwards the frame
synchronously and unmodified to the consumer, appending exactly that frame
to the consumer log. -/
theorem c1_frame_gate (r : AudioRecorder) (log : List Frame) (f : Frame) :
    (r._active = false → deliverFrame r log f = log) ∧
    (r._active = true → deliverFrame r log f = log ++ [f]) := by
  constructor <;> intro h <;> simp [deliverFrame, h]

/-- Witness for C1 at concrete inputs: an inactive session drops the frame,
an active one appends it. -/
theorem c1_frame_gate_witness :
    deliverFrame AudioRecorder.mk0 [] [1, 2] = [] ∧
    deliverFrame { AudioRecorder.mk0 with _active := true } [] [1, 2] = [[1, 2]] :=
  ⟨(c1_frame_gate AudioRecorder.mk0 [] [1, 2]).1 rfl,
   (c1_frame_gate { AudioRecorder.mk0 with _active := true } [] [1, 2]).2 rfl⟩

/-- C2: the invariant that an active session holds all four handles is true
of a freshly constructed session and is preserved by `start` (including its
error branch), `stop`, `close`, and the frame callback (which cannot change
the session state at all). -/
theorem c2_active_implies_resources :
    activeImpliesResources AudioRecorder.mk0 ∧
    (∀ env w, activeImpliesResources (start env w).inst) ∧
    (∀ w, activeImpliesResources (stop w).inst) ∧
    (∀ w, activeImpliesResources (close w).inst) ∧
    (∀ f w log, (exec [Event.frame f] w log).1 = w) := by
  refine ⟨?_, start_inv, ?_, ?_, ?_⟩
  · intro h; cases h
  · intro w h
    rw [stop_active_false w] at h
    cases h
  · intro w h
    rw [close_spec w] at h
    cases h
  · intro f w log
    rfl

/-- Witness for C2: after a successful `start` from the initial state the
session is active with the full bundle present. -/
theorem c2_witness : resourcesPresent (start envOk World.init).inst = true :=
  c2_active_implies_resources.2.1 envOk World.init (by decide)

/-- C3 fails on the code: a second `start()` immediately after a successful
one takes the reuse branch, allocating no new handles, keeping the same
context handle, and issuing a `resume()` call on it. -/
theorem c3_counterexample :
    (start envOk (start envOk World.init)).nextId = (start envOk World.init).nextId ∧
    (start envOk (start envOk World.init)).inst._context.map Ctx.id =
      (start envOk World.init).inst._context.map Ctx.id ∧
    (start envOk (start envOk World.init)).ctxResumeCalls =
      (start envOk World.init).ctxResumeCalls + 1 ∧
    needsRecreate (start envOk World.init).inst = false := by
  decide

/-- C3 amended: `start()` tears down and rebuilds the bundle only when a
component is missing, the context is closed, or the track has ended;
otherwise it reuses the existing bundle (re-enable track, resume context,
set the gate flag) and allocates nothing.  On the recreate path with all
acquisition steps succeeding, the whole bundle is freshly allocated. -/
theorem c3_recreate_only_when_needed :
    (∀ env w, needsRecreate w.inst = false →
        (start env w).nextId = w.nextId ∧
        (start env w).inst._context.map Ctx.id = w.inst._context.map Ctx.id ∧
        (start env w).inst._active = true) ∧
    (∀ env w, needsRecreate w.inst = true → ctxConstructionOk env = true →
        env.getUserMediaOk = true → env.addModuleOk = true →
        (start env w).inst._context.map Ctx.id = some w.nextId ∧
        (start env w).inst._stream.map Track.id = some (w.nextId + 1) ∧
        (start env w).inst._source.map SourceNode.id = some (w.nextId + 2) ∧
        (start env w).inst._recorder.map WorkletNode.id = some (w.nextId + 3) ∧
        (start env w).inst._active = true) := by
  constructor
  · intro env w h
    rw [start_reuse env w h]
    obtain ⟨h1, h2, _, _⟩ := needsRecreate_false_all_present h
    obtain ⟨c, hcx⟩ := Option.isSome_iff_exists.mp h1
    obtain ⟨t, hst⟩ := Option.isSome_iff_exists.mp h2
    simp [segReuseA, segReuseB, hcx, hst]
  · intro env w h hc hm ha
    rw [start_recreate_ok env w h hc hm ha]
    by_cases hp : anyPresent w.inst <;>
      simp [segRecreateA, segRecreateB, segRecreateC, close_spec, hp]

/-- Witness for C3 amended: the reuse conclusion applied right after a first
successful `start`, and the fresh-allocation conclusion applied to the very
first `start`. -/
theorem c3_recreate_only_when_needed_witness :
    (start envOk (start envOk World.init)).inst._active = true ∧
    (start envOk World.init).inst._context.map Ctx.id = some 0 :=
  ⟨(c3_recreate_only_when_needed.1 envOk (start envOk World.init) (by decide)).2.2,
   (c3_recreate_only_when_needed.2 envOk World.init (by decide) (by decide)
      (by decide) (by decide)).1⟩

/-- C4 fails on the code: when the device-stream request is denied, the
`catch` in `start()` only clears the gate flag; the context handle assigned
at line 96 is retained, so the post-state is not resource-free. -/
theorem c4_counterexample :
    (start envNoMedia World.init).inst._active = false ∧
    (start envNoMedia World.init).inst._context.isSome = true := by
  decide

/-- C4 amended: failure of any acquisition step inside `start()` is caught
and logged (exactly one error record), is not re-raised (`start` is total),
and leaves the gate flag false; handles assigned before the failing step
may remain referenced. -/
theorem c4_failure_caught (env : Env) (w : World)
    (h : needsRecreate w.inst = true)
    (hf : ctxConstructionOk env = false ∨ env.getUserMediaOk = false ∨
          env.addModuleOk = false) :
    (start env w).inst._active = false ∧
    (start env w).errorLogs = w.errorLogs + 1 := by
  by_cases hc : ctxConstructionOk env
  · by_cases hm : env.getUserMediaOk
    · by_cases ha : env.addModuleOk
      · rcases hf with hf | hf | hf <;> simp_all
      · have ha0 : env.addModuleOk = false := by simpa using ha
        by_cases hp : anyPresent w.inst <;>
          simp [start, startSegs, h, hc, hm, ha0, segRecreateA, segRecreateB,
            segRecreateCFail, close_spec, hp]
    · have hm0 : env.getUserMediaOk = false := by simpa using hm
      by_cases hp : anyPresent w.inst <;>
        simp [start, startSegs, h, hc, hm0, segRecreateA, segRecreateBFail,
          close_spec, hp]
  · have hc0 : ctxConstructionOk env = false := by simpa using hc
    by_cases hp : anyPresent w.inst <;>
      simp [start, startSegs, h, hc0, segRecreateAFail, close_spec, hp]

/-- Witness for C4 amended: a denied device-stream request from the initial
state ends inactive with one error logged. -/
theorem c4_failure_caught_witness :
    (start envNoMedia World.init).inst._active = false ∧
    (start envNoMedia World.init).errorLogs = World.init.errorLogs + 1 :=
  c4_failure_caught envNoMedia World.init (by decide) (by decide)

/-- C6: `close()` is total on every session state; afterwards the gate flag
is false, the sample rate and all four handle fields are cleared, each
engine release call (track stop, port detach, source disconnect, context
close) fires exactly once per present handle, and a repeated `close()` is a
no-op. -/
theorem c6_close_release (w : World) :
    (close w).inst = ⟨false, none, none, none, none⟩ ∧
    sampleRateOf (close w).inst = none ∧
    (close w).trackStopCalls = w.trackStopCalls + (if w.inst._stream.isSome then 1 else 0) ∧
    (close w).portDetachCalls = w.portDetachCalls + (if w.inst._recorder.isSome then 1 else 0) ∧
    (close w).srcDisconnectCalls = w.srcDisconnectCalls + (if w.inst._source.isSome then 1 else 0) ∧
    (close w).ctxCloseCalls = w.ctxCloseCalls + (if w.inst._context.isSome then 1 else 0) ∧
    close (close w) = close w := by
  refine ⟨?_, ?_, ?_, ?_, ?_, ?_, ?_⟩ <;>
    simp [close_spec, sampleRateOf]

/-- C7 fails on the code: from a running session, `stop()` performs exactly
the gate-clear, track-disable and context-suspend steps and returns; there
is no grace-interval wait of any length in its step sequence. -/
theorem c7_counterexample :
    stopEffects (start envOk World.init).inst =
      [StopEffect.setActiveFalse, StopEffect.disableTrack,
        StopEffect.suspendContext] ∧
    (stopEffects (start envOk World.init).inst).filter StopEffect.isDelay = [] := by
  decide

/-- C7 amended: `stop()` clears the gate flag, disables the track and
suspends the context as applicable, then returns immediately: its step
sequence never contains a timed wait, from any session state.  Draining of
in-flight frames relies solely on the gate flag. -/
theorem c7_stop_has_no_delay (r : AudioRecorder) :
    (stopEffects r).filter StopEffect.isDelay = [] := by
  rcases r with ⟨act, oc, os, osrc, orc⟩
  rcases os with _ | ⟨tid, ten, trd⟩ <;>
    rcases oc with _ | ⟨cid, cst, csr⟩ <;>
    try cases cst
  all_goals rfl

/-- C8 fails on the code: after a `start()` whose device-stream request was
denied, the sample rate is defined (the freshly assigned context survives
the catch) while the resource bundle is not present, so sample-rate presence
is not equivalent to bundle presence. -/
theorem c8_counterexample :
    (sampleRateOf (start envNoMedia World.init).inst).isSome = true ∧
    resourcesPresent (start envNoMedia World.init).inst = false := by
  decide

/-- C8 amended: after every successful `start()` (one that ends with the
gate flag set) the sample rate is defined; in general the sample rate is
present exactly when the context handle is present. -/
theorem c8_sampleRate_def (env : Env) (w : World) :
    ((start env w).inst._active = true →
      (sampleRateOf (start env w).inst).isSome = true) ∧
    (∀ r : AudioRecorder, (sampleRateOf r).isSome = r._context.isSome) := by
  constructor
  · intro h
    have hres := start_inv env w h
    rcases hcx : (start env w).inst._context with _ | c
    · rw [resourcesPresent, hcx] at hres
      simp at hres
    · simp [sampleRateOf, hcx]
  · intro r
    rcases r with ⟨act, oc, os, osrc, orc⟩
    cases oc <;> simp [sampleRateOf]

/-- Witness for C8 amended: the very first `start` succeeds and leaves the
sample rate defined. -/
theorem c8_sampleRate_def_witness :
    (sampleRateOf (start envOk World.init).inst).isSome = true :=
  (c8_sampleRate_def envOk World.init).1 (by decide)

/-- C9 fails on the code: in a secure context with the engine constructor
present, the getter returns the constructor object itself (the value of the
JavaScript `&&` chain), which is not a boolean. -/
theorem c9_counterexample :
    isSupported envOk = JSVal.ctorFn 0 ∧
    isSupported envOk ≠ JSVal.bool true ∧
    isSupported envOk ≠ JSVal.bool false := by
  decide

/-- C9 amended: the capability getter is a pure function of the host
environment; it returns the literal `false` whenever the context is
non-secure, regardless of engine availability, and in general its result is
truthy exactly when the context is secure and some engine constructor is
present — but that result is not always a boolean. -/
theorem c9_isSupported_env (env : Env) :
    (env.secure = false → isSupported env = JSVal.bool false) ∧
    (isSupported env).truthy =
      (env.secure && (env.audioContextCtor.isSome || env.webkitAudioContextCtor.isSome)) := by
  constructor
  · intro h
    simp [isSupported, jsAnd, JSVal.truthy, h]
  · rcases env with ⟨sec, ac, wac, nok, sr, gum, am⟩
    cases sec <;> rcases ac with _ | a <;> rcases wac with _ | b <;>
      simp [isSupported, jsAnd, jsOr, windowAudioContext,
        windowWebkitAudioContext, JSVal.truthy]

/-- Witness for C9 amended: a non-secure environment with the engine present
still yields the literal `false`. -/
theorem c9_isSupported_env_witness :
    isSupported { envOk with secure := false } = JSVal.bool false :=
  (c9_isSupported_env { envOk with secure := false }).1 rfl

/-- C10: `stop()` is idempotent — from every session state, a second
`stop()` changes nothing: the gate flag stays false, the handles and the
disabled track are untouched, and no second suspend call is issued (the
context is no longer running). -/
theorem c10_stop_idempotent (w : World) : stop (stop w) = stop w := by
  rcases w with ⟨⟨act, oc, os, osrc, orc⟩, n, e, ts, cc, cs, cr, sd, pd⟩
  rcases os with _ | ⟨tid, ten, trd⟩ <;>
    rcases oc with _ | ⟨cid, cst, csr⟩ <;>
    try cases cst
  all_goals rfl

/-- C5: in `stop()` the gate flag is cleared strictly before the
track-disable and context-suspend steps (it is the first step of the
sequence); consequently, running `start(); stop(); start()` from a fresh
session with arbitrary frame bursts delivered at every point where the
engine can interleave — between any two atomic segments of the three calls —
the consumer receives exactly the frames delivered while the first session
was fully started (`fc`) and after the second `start` completed (`fg`); no
frame delivered between the `stop()` call and the completion of the second
`start()` (`fd`, `fe`, `ff`) is ever forwarded.  The two `startSegs`
equations pin the schedule to the exact code paths taken: a full recreate
for the first `start`, reuse for the second. -/
theorem c5_stop_gates_interleaved_frames :
    (∀ r, (stopEffects r).head? = some StopEffect.setActiveFalse) ∧
    startSegs envOk World.init.inst = [segRecreateA envOk, segRecreateB, segRecreateC] ∧
    startSegs envOk (stop (start envOk World.init)).inst = [segReuseA, segReuseB] ∧
    (∀ fa fb fc fd fe ff fg : List Frame,
      (exec
        (Event.seg (segRecreateA envOk) :: (fa.map Event.frame ++
          (Event.seg segRecreateB :: (fb.map Event.frame ++
            (Event.seg segRecreateC :: (fc.map Event.frame ++
              (Event.seg stopSegA :: (fd.map Event.frame ++
                (Event.seg stopSegB :: (fe.map Event.frame ++
                  (Event.seg segReuseA :: (ff.map Event.frame ++
                    (Event.seg segReuseB :: fg.map Event.frame)))))))))))))
        World.init []).2 = fc ++ fg) := by
  refine ⟨fun r => rfl, rfl, rfl, ?_⟩
  intro fa fb fc fd fe ff fg
  simp [exec_seg_cons, exec_frames_append, exec_frames, exec,
    show (segRecreateA envOk World.init).inst._active = false from rfl,
    show (segRecreateB (segRecreateA envOk World.init)).inst._active = false from rfl,
    show (segRecreateC (segRecreateB (segRecreateA envOk
      World.init))).inst._active = true from rfl,
    show (stopSegA (segRecreateC (segRecreateB (segRecreateA envOk
      World.init)))).inst._active = false from rfl,
    show (stopSegB (stopSegA (segRecreateC (segRecreateB (segRecreateA envOk
      World.init))))).inst._active = false from rfl,
    show (segReuseA (stopSegB (stopSegA (segRecreateC (segRecreateB
      (segRecreateA envOk World.init)))))).inst._active = false from rfl,
    show (segReuseB (segReuseA (stopSegB (stopSegA (segRecreateC (segRecreateB
      (segRecreateA envOk World.init))))))).inst._active = true from rfl]
